import Mathlib

/- Verification of the CloudCompile/homepage dashboard orchestration core
   (src/src/App.jsx): settings persistence, the Pollinations chat retry
   wrapper, the weather refresher and the wallpaper generator.

   The embedding translates the JavaScript source into executable Lean
   definitions.  Host-provided effects (localStorage, fetch, geolocation,
   Math.random, timers) are passed in as explicit inputs; JSON.parse and
   JSON.stringify are modelled by a small executable JSON parser and
   printer over a JSON value type that also serves as the domain of
   JavaScript values produced by JSON.parse. -/

/-- JSON values (also the shape of plain JavaScript data values).
    Numbers keep their source lexeme: the dashboard never computes with
    parsed numbers, so floating-point semantics are not needed. -/
inductive Json where
  | null : Json
  | bool (b : Bool) : Json
  | num (lexeme : String) : Json
  | str (s : String) : Json
  | arr (elems : List Json) : Json
  | obj (fields : List (String × Json)) : Json

/-- Drop leading JSON whitespace. -/
def skipWs : List Char → List Char
  | [] => []
  | c :: cs => if c = ' ' ∨ c = '\n' ∨ c = '\t' ∨ c = '\r' then skipWs cs else c :: cs

/-- Value of a hexadecimal digit, if the character is one. -/
def hexVal (c : Char) : Option Nat :=
  if '0' ≤ c ∧ c ≤ '9' then some (c.toNat - '0'.toNat)
  else if 'a' ≤ c ∧ c ≤ 'f' then some (c.toNat - 'a'.toNat + 10)
  else if 'A' ≤ c ∧ c ≤ 'F' then some (c.toNat - 'A'.toNat + 10)
  else none

/-- Parse the body of a JSON string (the opening quote already consumed),
    returning the decoded characters and the remaining input. -/
def parseStringChars : List Char → Except String (List Char × List Char)
  | [] => Except.error "unterminated string"
  | '"' :: cs => Except.ok ([], cs)
  | '\\' :: [] => Except.error "unterminated escape"
  | '\\' :: e :: cs =>
    if e = 'u' then
      match cs with
      | h1 :: h2 :: h3 :: h4 :: cs3 =>
        match hexVal h1, hexVal h2, hexVal h3, hexVal h4 with
        | some a, some b, some c, some d =>
          match parseStringChars cs3 with
          | Except.ok (out, rest) => Except.ok (Char.ofNat (((a * 16 + b) * 16 + c) * 16 + d) :: out, rest)
          | Except.error m => Except.error m
        | _, _, _, _ => Except.error "invalid unicode escape"
      | _ => Except.error "invalid unicode escape"
    else
      let repl : Option Char :=
        if e = '"' ∨ e = '\\' ∨ e = '/' then some e
        else if e = 'n' then some '\n'
        else if e = 't' then some '\t'
        else if e = 'r' then some '\r'
        else if e = 'b' then some (Char.ofNat 8)
        else if e = 'f' then some (Char.ofNat 12)
        else none
      match repl with
      | none => Except.error "invalid escape"
      | some ch =>
        match parseStringChars cs with
        | Except.ok (out, rest) => Except.ok (ch :: out, rest)
        | Except.error m => Except.error m
  | c :: cs =>
    match parseStringChars cs with
    | Except.ok (out, rest) => Except.ok (c :: out, rest)
    | Except.error m => Except.error m

/-- Take a maximal run of decimal digits. -/
def takeDigits : List Char → List Char × List Char
  | [] => ([], [])
  | c :: cs =>
    if c.isDigit then
      let p := takeDigits cs
      (c :: p.1, p.2)
    else ([], c :: cs)

/-- Parse a JSON number lexeme (sign, integer part, optional fraction and
    exponent), returning the lexeme characters and the remaining input. -/
def parseNumberLexeme (cs : List Char) : Except String (List Char × List Char) :=
  let signSplit : List Char × List Char :=
    match cs with
    | '-' :: rest => (['-'], rest)
    | _ => ([], cs)
  let intSplit := takeDigits signSplit.2
  if intSplit.1 = [] then Except.error "invalid number"
  else
    let fracSplit : List Char × List Char :=
      match intSplit.2 with
      | '.' :: rest =>
        let ds := takeDigits rest
        ('.' :: ds.1, ds.2)
      | _ => ([], intSplit.2)
    if fracSplit.1 = ['.'] then Except.error "invalid number"
    else
      let expSplit : Except String (List Char × List Char) :=
        match fracSplit.2 with
        | 'e' :: rest =>
          match rest with
          | '+' :: rest2 =>
            let ds := takeDigits rest2
            if ds.1 = [] then Except.error "invalid number" else Except.ok ('e' :: '+' :: ds.1, ds.2)
          | '-' :: rest2 =>
            let ds := takeDigits rest2
            if ds.1 = [] then Except.error "invalid number" else Except.ok ('e' :: '-' :: ds.1, ds.2)
          | _ =>
            let ds := takeDigits rest
            if ds.1 = [] then Except.error "invalid number" else Except.ok ('e' :: ds.1, ds.2)
        | 'E' :: rest =>
          match rest with
          | '+' :: rest2 =>
            let ds := takeDigits rest2
            if ds.1 = [] then Except.error "invalid number" else Except.ok ('E' :: '+' :: ds.1, ds.2)
          | '-' :: rest2 =>
            let ds := takeDigits rest2
            if ds.1 = [] then Except.error "invalid number" else Except.ok ('E' :: '-' :: ds.1, ds.2)
          | _ =>
            let ds := takeDigits rest
            if ds.1 = [] then Except.error "invalid number" else Except.ok ('E' :: ds.1, ds.2)
        | _ => Except.ok ([], fracSplit.2)
      match expSplit with
      | Except.error m => Except.error m
      | Except.ok (es, rest) => Except.ok (signSplit.1 ++ intSplit.1 ++ fracSplit.1 ++ es, rest)

mutual

/-- Recursive-descent JSON value, fuelled by remaining nesting budget. -/
def parseValue : Nat → List Char → Except String (Json × List Char)
  | 0, _ => Except.error "depth limit exceeded"
  | fuel + 1, cs =>
    match skipWs cs with
    | [] => Except.error "unexpected end of input"
    | c :: cs1 =>
      if c = '\x7b' then
        match skipWs cs1 with
        | '\x7d' :: cs2 => Except.ok (Json.obj [], cs2)
        | cs2 =>
          match parseFields fuel cs2 with
          | Except.ok (fs, rest) => Except.ok (Json.obj fs, rest)
          | Except.error m => Except.error m
      else if c = '[' then
        match skipWs cs1 with
        | ']' :: cs2 => Except.ok (Json.arr [], cs2)
        | cs2 =>
          match parseElems fuel cs2 with
          | Except.ok (es, rest) => Except.ok (Json.arr es, rest)
          | Except.error m => Except.error m
      else if c = '"' then
        match parseStringChars cs1 with
        | Except.ok (out, rest) => Except.ok (Json.str (String.mk out), rest)
        | Except.error m => Except.error m
      else if c = 't' then
        match cs1 with
        | 'r' :: 'u' :: 'e' :: cs2 => Except.ok (Json.bool true, cs2)
        | _ => Except.error "invalid literal"
      else if c = 'f' then
        match cs1 with
        | 'a' :: 'l' :: 's' :: 'e' :: cs2 => Except.ok (Json.bool false, cs2)
        | _ => Except.error "invalid literal"
      else if c = 'n' then
        match cs1 with
        | 'u' :: 'l' :: 'l' :: cs2 => Except.ok (Json.null, cs2)
        | _ => Except.error "invalid literal"
      else if c = '-' ∨ c.isDigit then
        match parseNumberLexeme (c :: cs1) with
        | Except.ok (ds, rest) => Except.ok (Json.num (String.mk ds), rest)
        | Except.error m => Except.error m
      else Except.error "unexpected token"

/-- One-or-more comma-separated array elements up to the closing bracket. -/
def parseElems : Nat → List Char → Except String (List Json × List Char)
  | 0, _ => Except.error "depth limit exceeded"
  | fuel + 1, cs =>
    match parseValue fuel cs with
    | Except.error m => Except.error m
    | Except.ok (v, rest) =>
      match skipWs rest with
      | ',' :: rest2 =>
        match parseElems fuel rest2 with
        | Except.ok (es, rest3) => Except.ok (v :: es, rest3)
        | Except.error m => Except.error m
      | ']' :: rest2 => Except.ok ([v], rest2)
      | _ => Except.error "expected comma or close bracket"

/-- One-or-more comma-separated object fields up to the closing brace. -/
def parseFields : Nat → List Char → Except String (List (String × Json) × List Char)
  | 0, _ => Except.error "depth limit exceeded"
  | fuel + 1, cs =>
    match skipWs cs with
    | '"' :: cs1 =>
      match parseStringChars cs1 with
      | Except.error m => Except.error m
      | Except.ok (keyChars, cs2) =>
        match skipWs cs2 with
        | ':' :: cs3 =>
          match parseValue fuel cs3 with
          | Except.error m => Except.error m
          | Except.ok (v, cs4) =>
            match skipWs cs4 with
            | ',' :: cs5 =>
              match parseFields fuel cs5 with
              | Except.ok (fs, cs6) => Except.ok ((String.mk keyChars, v) :: fs, cs6)
              | Except.error m => Except.error m
            | '\x7d' :: cs5 => Except.ok ([(String.mk keyChars, v)], cs5)
            | _ => Except.error "expected comma or close brace"
        | _ => Except.error "expected colon"
    | _ => Except.error "expected string key"

end

/-- Model of JSON.parse: succeeds with the parsed value or fails with a
    message (JSON.parse throws a SyntaxError on the failing inputs). -/
def jsonParse (s : String) : Except String Json :=
  match parseValue (s.length + 1) s.toList with
  | Except.error m => Except.error m
  | Except.ok (v, rest) =>
    match skipWs rest with
    | [] => Except.ok v
    | _ => Except.error "unexpected trailing characters"

/-- Escape one character the way JSON.stringify does for the repertoire the
    dashboard stores (quote, backslash and the common control characters). -/
def escapeJsonChar (c : Char) : String :=
  if c = '"' then "\\\""
  else if c = '\\' then "\\\\"
  else if c = '\n' then "\\n"
  else if c = '\t' then "\\t"
  else if c = '\r' then "\\r"
  else String.singleton c

/-- Escape a string for JSON output. -/
def escapeJsonString (s : String) : String :=
  String.join (s.toList.map escapeJsonChar)

mutual

/-- Model of JSON.stringify (no extra whitespace, insertion-ordered keys). -/
def Json.stringify : Json → String
  | Json.null => "null"
  | Json.bool true => "true"
  | Json.bool false => "false"
  | Json.num lexeme => lexeme
  | Json.str s => "\"" ++ escapeJsonString s ++ "\""
  | Json.arr elems => "[" ++ stringifyElems elems ++ "]"
  | Json.obj fields => "\x7b" ++ stringifyFields fields ++ "\x7d"

/-- Comma-join serialized array elements. -/
def stringifyElems : List Json → String
  | [] => ""
  | [j] => Json.stringify j
  | j :: rest => Json.stringify j ++ "," ++ stringifyElems rest

/-- Comma-join serialized object fields. -/
def stringifyFields : List (String × Json) → String
  | [] => ""
  | [(k, v)] => "\"" ++ escapeJsonString k ++ "\":" ++ Json.stringify v
  | (k, v) :: rest => "\"" ++ escapeJsonString k ++ "\":" ++ Json.stringify v ++ "," ++ stringifyFields rest

end

/- Settings model (App.jsx lines 25-44 and 64-98). -/

/-- A wallpaper preset (name and URL), App.jsx WALLPAPERS entries. -/
structure Wallpaper where
  name : String
  url : String
deriving Repr, DecidableEq

/-- The WALLPAPERS preset list from App.jsx. -/
def WALLPAPERS : List Wallpaper :=
  [⟨"Mountain Lake", "https://images.unsplash.com/photo-1550684848-fac1c5b4e853?q=80&w=2070&auto=format&fit=crop"⟩,
   ⟨"Midnight City", "https://images.unsplash.com/photo-1514525253440-b393452e8d26?q=80&w=2000&auto=format&fit=crop"⟩,
   ⟨"Forest Mist", "https://images.unsplash.com/photo-1511497584788-876760111969?q=80&w=2000&auto=format&fit=crop"⟩,
   ⟨"Ocean Sunset", "https://images.unsplash.com/photo-1507525428034-b723cf961d3e?q=80&w=2000&auto=format&fit=crop"⟩]

/-- WALLPAPERS[0].url, the first preset default used by DEFAULT_SETTINGS and
    by the wallpaper generator's failure revert. -/
def firstPresetUrl : String :=
  (WALLPAPERS.headD ⟨"", ""⟩).url

/-- The settings record: the fields of the DEFAULT_SETTINGS object literal.
    unit holds the JavaScript string value ("F" or "C"), as in the source. -/
structure SettingsRecord where
  userName : String
  userEmail : String
  apiKey : String
  pollinationsApiKey : String
  profilePictureUrl : String
  location : String
  isAutoLocation : Bool
  is24Hour : Bool
  unit : String
  wallpaper : String
  aiSearchModel : String
deriving Repr, DecidableEq

/-- The DEFAULT_SETTINGS constant from App.jsx. -/
def DEFAULT_SETTINGS : SettingsRecord :=
  { userName := "Guest"
    userEmail := "guest@example.com"
    apiKey := ""
    pollinationsApiKey := ""
    profilePictureUrl := "https://api.dicebear.com/7.x/avataaars/svg?seed=Guest"
    location := "Rochester, MN"
    isAutoLocation := false
    is24Hour := false
    unit := "F"
    wallpaper := firstPresetUrl
    aiSearchModel := "gemini-search" }

/-- The settings record as the JavaScript object value it denotes
    (insertion-ordered fields, matching the object literal). -/
def settingsToJson (s : SettingsRecord) : Json :=
  Json.obj
    [("userName", Json.str s.userName),
     ("userEmail", Json.str s.userEmail),
     ("apiKey", Json.str s.apiKey),
     ("pollinationsApiKey", Json.str s.pollinationsApiKey),
     ("profilePictureUrl", Json.str s.profilePictureUrl),
     ("location", Json.str s.location),
     ("isAutoLocation", Json.bool s.isAutoLocation),
     ("is24Hour", Json.bool s.is24Hour),
     ("unit", Json.str s.unit),
     ("wallpaper", Json.str s.wallpaper),
     ("aiSearchModel", Json.str s.aiSearchModel)]

/-- JSON.stringify(settings), the value written through to the store. -/
def serializeSettings (s : SettingsRecord) : String :=
  Json.stringify (settingsToJson s)

/-- The settings useState initializer (App.jsx lines 66-69):
    `const saved = localStorage.getItem('dashboardSettings');
     return saved ? JSON.parse(saved) : DEFAULT_SETTINGS;`
    localStorage.getItem returns null when the key is absent; null and the
    empty string are falsy, so those cases yield DEFAULT_SETTINGS, and any
    other stored string is handed to JSON.parse, whose outcome (value or
    thrown SyntaxError) is returned unwrapped - there is no try/catch. -/
def loadSettings (saved : Option String) : Except String Json :=
  match saved with
  | none => Except.ok (settingsToJson DEFAULT_SETTINGS)
  | some s => if s = "" then Except.ok (settingsToJson DEFAULT_SETTINGS) else jsonParse s

/- Persistent store and write-through effects (App.jsx lines 92-98). -/

/-- The localStorage substrate: a map from key to stored string. -/
def Store : Type := String → Option String

/-- localStorage.setItem. -/
def Store.set (st : Store) (k v : String) : Store :=
  fun k2 => if k2 = k then some v else st k2

/-- A store with no keys present. -/
def emptyStore : Store := fun _ => none

/-- The dashboard state relevant to persistence: the settings record, the
    notes string, and the localStorage contents. -/
structure AppState where
  settings : SettingsRecord
  notes : String
  store : Store

/-- The settings persistence effect (App.jsx lines 92-94):
    `localStorage.setItem('dashboardSettings', JSON.stringify(settings))`,
    run after every settings change. -/
def persistSettings (a : AppState) : AppState :=
  { a with store := a.store.set "dashboardSettings" (serializeSettings a.settings) }

/-- The notes persistence effect (App.jsx lines 96-98):
    `localStorage.setItem('dashboardNotes', notes)`. -/
def persistNotes (a : AppState) : AppState :=
  { a with store := a.store.set "dashboardNotes" a.notes }

/-- A settings mutation (`setSettings(...)`) followed by its write-through
    effect: the new record replaces the old and is immediately persisted. -/
def setSettings (a : AppState) (r : SettingsRecord) : AppState :=
  persistSettings { a with settings := r }

/-- A notes mutation (`setNotes(...)`) followed by its write-through effect. -/
def setNotes (a : AppState) (n : String) : AppState :=
  persistNotes { a with notes := n }

/- Pollinations chat call wrapper (App.jsx lines 114-186). -/

/-- Outcome of one fetch of the chat-completion endpoint, as observed by the
    wrapper: a success response carrying `choices?.[0]?.message?.content`
    (none when the optional chain yields undefined), a non-ok HTTP status,
    or a thrown network/parse error with its message. -/
inductive HttpOutcome where
  | ok (content : Option String) : HttpOutcome
  | status (code : Nat) : HttpOutcome
  | netError (msg : String) : HttpOutcome
deriving Repr, DecidableEq

/-- maxRetries = 3 (App.jsx line 123). -/
def maxRetries : Nat := 3

/-- What one run of the wrapper's for-loop did: fetch attempts performed,
    backoff delays slept (in ms, in order), the single response or error
    text produced, and how many times the finally block executed
    `set...(false)` on the busy flag. -/
structure CallTrace where
  attempts : Nat
  sleeps : List ℚ
  result : String
  clears : Nat
deriving Repr, DecidableEq

/-- The body of the for-loop of callPollinationsChatAPI (App.jsx 131-169),
    one list entry per remaining attempt index (the source iterates
    attempt = 0, 1, 2).  `responses attempt` is the outcome of the fetch on
    that attempt; `jitter attempt` is the `Math.random() * 1000` summand of
    that attempt's backoff.  capturedChatting/capturedSearching are the
    values of isAIChatting/isAISearching captured by the closure at the
    render that created the handler: the finally block reads those, not the
    live state, so they are fixed for the whole call.  Per iteration:
    - res.ok: the content (empty string and undefined are both falsy, hence
      replaced by the sentinel) is published and the loop returns;
    - status 401: `throw new Error("Authentication failed. ...")` is caught
      and published as `AI Error: ` + message; return;
    - status 429 with attempts remaining: sleep 2^attempt*1000 + jitter and
      continue with the next attempt;
    - any other non-ok status (including 429 on the last attempt):
      `throw new Error("API call failed with status: " + status)`, caught
      and published; return;
    - a thrown fetch/json error: caught and published; return.
    The finally block runs at the end of every iteration (also on continue)
    and clears the busy flag only when
    `attempt === maxRetries - 1 || (!isAIChatting && !isAISearching)`. -/
def runAttemptsList (responses : Nat → HttpOutcome) (jitter : Nat → ℚ)
    (capturedChatting capturedSearching : Bool) : List Nat → CallTrace
  | [] => ⟨0, [], "", 0⟩
  | attempt :: rest =>
    let clearHere : Nat :=
      if attempt = maxRetries - 1 ∨ (capturedChatting = false ∧ capturedSearching = false)
      then 1 else 0
    match responses attempt with
    | HttpOutcome.ok content =>
      ⟨1, [],
       (match content with
        | some c => if c = "" then "No response received from AI." else c
        | none => "No response received from AI."),
       clearHere⟩
    | HttpOutcome.status code =>
      if code = 401 then
        ⟨1, [], "AI Error: Authentication failed. Check your API key.", clearHere⟩
      else if code = 429 ∧ attempt < maxRetries - 1 then
        let rest_t := runAttemptsList responses jitter capturedChatting capturedSearching rest
        ⟨rest_t.attempts + 1,
         ((2 : ℚ) ^ attempt * 1000 + jitter attempt) :: rest_t.sleeps,
         rest_t.result,
         clearHere + rest_t.clears⟩
      else
        ⟨1, [], "AI Error: API call failed with status: " ++ toString code, clearHere⟩
    | HttpOutcome.netError m => ⟨1, [], "AI Error: " ++ m, clearHere⟩

/-- The whole retry loop: `for (let attempt = 0; attempt < maxRetries; ...)`. -/
def runCall (responses : Nat → HttpOutcome) (jitter : Nat → ℚ)
    (capturedChatting capturedSearching : Bool) : CallTrace :=
  runAttemptsList responses jitter capturedChatting capturedSearching (List.range maxRetries)

/-- The transient per-widget AI state (§3 TransientAIState): response string
    and busy flag for the chat widget and for the search widget. -/
structure AIState where
  aiChatResponse : String
  aiSearchResponse : String
  isAIChatting : Bool
  isAISearching : Bool
deriving Repr, DecidableEq

/-- The literal short-circuit message of App.jsx lines 116-118. -/
def keyNotSetMsg : String := "Error: Pollinations API Key not set in settings."

/-- The observable effect of one callPollinationsChatAPI invocation: the
    transient AI state afterwards, how many fetches were performed, the
    delays slept, and whether the busy flag was ever set to true. -/
structure CallEffect where
  state : AIState
  attempts : Nat
  sleeps : List ℚ
  busySetTrue : Bool
deriving Repr, DecidableEq

/-- callPollinationsChatAPI (App.jsx lines 115-170).  With an empty (falsy)
    pollinationsApiKey the call returns immediately after writing the
    "key not set" message into the target widget's response field, before
    any busy-flag set or fetch.  Otherwise the target widget's busy flag is
    set, the retry loop runs with the closure-captured flag values of the
    invoking render (the flags of `st`), the loop's single result text is
    published to the target widget, and the busy flag ends false exactly
    when the finally block cleared it at least once. -/
def callPollinationsChatAPI (st : AIState) (pollinationsApiKey : String) (isSearch : Bool)
    (responses : Nat → HttpOutcome) (jitter : Nat → ℚ) : CallEffect :=
  if pollinationsApiKey = "" then
    { state :=
        if isSearch then { st with aiSearchResponse := keyNotSetMsg }
        else { st with aiChatResponse := keyNotSetMsg }
      attempts := 0
      sleeps := []
      busySetTrue := false }
  else
    let st1 := if isSearch then { st with isAISearching := true } else { st with isAIChatting := true }
    let t := runCall responses jitter st.isAIChatting st.isAISearching
    let st2 :=
      if isSearch then { st1 with aiSearchResponse := t.result }
      else { st1 with aiChatResponse := t.result }
    let st3 :=
      if 0 < t.clears then
        (if isSearch then { st2 with isAISearching := false } else { st2 with isAIChatting := false })
      else st2
    { state := st3, attempts := t.attempts, sleeps := t.sleeps, busySetTrue := true }

/-- Drop leading whitespace characters. -/
def dropLeadingWs : List Char → List Char
  | [] => []
  | c :: cs => if c.isWhitespace then dropLeadingWs cs else c :: cs

/-- Model of the JavaScript String.prototype.trim used by the submit
    handlers' blank-prompt guards. -/
def jsTrim (s : String) : String :=
  String.mk ((dropLeadingWs (dropLeadingWs s.toList).reverse).reverse)

/-- handleAIChatSubmit (App.jsx lines 172-178): blank prompts are ignored;
    otherwise the response field shows "Thinking..." and the wrapper is
    invoked for the chat widget (model "openai"; the model id does not
    influence the orchestration, so it is not threaded through).  Clearing
    the query input afterwards is UI state outside this model. -/
def handleAIChatSubmit (st : AIState) (pollinationsApiKey query : String)
    (responses : Nat → HttpOutcome) (jitter : Nat → ℚ) : CallEffect :=
  if jsTrim query = "" then ⟨st, 0, [], false⟩
  else
    callPollinationsChatAPI { st with aiChatResponse := "Thinking..." }
      pollinationsApiKey false responses jitter

/-- handleAISearchSubmit (App.jsx lines 180-186): the search-widget twin of
    handleAIChatSubmit (model settings.aiSearchModel, isSearch = true). -/
def handleAISearchSubmit (st : AIState) (pollinationsApiKey query : String)
    (responses : Nat → HttpOutcome) (jitter : Nat → ℚ) : CallEffect :=
  if jsTrim query = "" then ⟨st, 0, [], false⟩
  else
    callPollinationsChatAPI { st with aiSearchResponse := "Searching the web..." }
      pollinationsApiKey true responses jitter

/- Weather refresher (App.jsx lines 243-293). -/

/-- The query the weather fetch URL is built from: `q=<city>` or
    `lat=<>&lon=<>` (App.jsx lines 262-268). -/
inductive WeatherQuery where
  | byCity (city : String) : WeatherQuery
  | byCoords (lat lon : ℚ) : WeatherQuery
deriving Repr, DecidableEq

/-- The provider fields the success path reads (App.jsx lines 272-280). -/
structure WeatherData where
  temp : ℚ
  humidity : Nat
  description : String
  icon : String
  name : String
  windSpeed : ℚ
deriving Repr, DecidableEq

/-- Outcome of the single weather GET: parsed data, a non-ok status
    (the code throws 'Failed to fetch weather'), or a thrown error. -/
inductive FetchOutcome where
  | ok (data : WeatherData) : FetchOutcome
  | httpError (status : Nat) : FetchOutcome
  | netError (msg : String) : FetchOutcome
deriving Repr, DecidableEq

/-- Whether the fetch outcome is the success case. -/
def FetchOutcome.isSuccess : FetchOutcome → Bool
  | FetchOutcome.ok _ => true
  | _ => false

/-- The displayed temperature: a number, or the '--' placeholder used by
    the error snapshot. -/
inductive TempVal where
  | num (n : ℤ) : TempVal
  | placeholder : TempVal
deriving Repr, DecidableEq

/-- The WeatherSnapshot record set by setWeather. -/
structure WeatherSnapshot where
  temp : TempVal
  condition : String
  location : String
  icon : String
  humidity : Nat
  wind : ℚ
deriving Repr, DecidableEq

/-- The error snapshot of the catch block (App.jsx lines 282-289). -/
def errorWeatherSnapshot : WeatherSnapshot :=
  ⟨TempVal.placeholder, "API Error", "Check Key", "unknown", 0, 0⟩

/-- The mock snapshot of the no-key branch (App.jsx lines 247-255). -/
def mockWeatherSnapshot (s : SettingsRecord) : WeatherSnapshot :=
  ⟨TempVal.num (if s.unit = "F" then 72 else 22), "Clear Sky", "Rochester, MN (Mock)", "01d", 45, 12⟩

/-- The query the live path ends up with: the free-text location, unless
    isAutoLocation is set, in which case the awaited geolocation position
    (whose rejection propagates as a thrown error). -/
def liveQuery (s : SettingsRecord) (geo : Except String (ℚ × ℚ)) : Except String WeatherQuery :=
  if s.isAutoLocation then
    match geo with
    | Except.ok p => Except.ok (WeatherQuery.byCoords p.1 p.2)
    | Except.error e => Except.error e
  else Except.ok (WeatherQuery.byCity s.location)

/-- `const units = settings.unit === 'F' ? 'imperial' : 'metric'`. -/
def unitsParam (s : SettingsRecord) : String :=
  if s.unit = "F" then "imperial" else "metric"

/-- The observable result of one fetchWeather run: the snapshot written by
    setWeather (a full replacement of the previous one), whether the
    weather GET was performed, the simulated mock delay if any, and the
    loading flag after completion. -/
structure FetchWeatherResult where
  weather : WeatherSnapshot
  networkCalled : Bool
  mockDelayMs : Option Nat
  loadingAfter : Bool
deriving Repr, DecidableEq

/-- fetchWeather (App.jsx lines 243-293).  Empty (falsy) apiKey: the mock
    snapshot is installed by a setTimeout(..., 800) and no request is made.
    Otherwise the query is resolved (geolocation first when isAutoLocation),
    the single GET is issued, and either the provider data is mapped into a
    snapshot (temperature rounded with Math.round) or the catch block
    installs the error snapshot; the finally block clears the loading flag. -/
def fetchWeather (s : SettingsRecord) (geo : Except String (ℚ × ℚ))
    (response : WeatherQuery → String → FetchOutcome) : FetchWeatherResult :=
  if s.apiKey = "" then
    ⟨mockWeatherSnapshot s, false, some 800, false⟩
  else
    match liveQuery s geo with
    | Except.error _ => ⟨errorWeatherSnapshot, false, none, false⟩
    | Except.ok q =>
      match response q (unitsParam s) with
      | FetchOutcome.ok d =>
        ⟨⟨TempVal.num (round d.temp), d.description, d.name, d.icon, d.humidity, d.windSpeed⟩,
         true, none, false⟩
      | FetchOutcome.httpError _ => ⟨errorWeatherSnapshot, true, none, false⟩
      | FetchOutcome.netError _ => ⟨errorWeatherSnapshot, true, none, false⟩

/- Wallpaper generator (App.jsx lines 188-240). -/

/-- Outcome of the single image-generation POST: a success response whose
    `data.url` is a string or absent, a non-ok status, or a thrown error. -/
inductive GenOutcome where
  | ok (url : Option String) : GenOutcome
  | httpError (status : Nat) : GenOutcome
  | netError (msg : String) : GenOutcome
deriving Repr, DecidableEq

/-- The `error.message` reaching the catch block for each failing outcome:
    a non-ok status throws `Status: <code>`, a truthy-check failure on
    data.url throws 'No image URL returned.', and a thrown fetch/json error
    keeps its own message. -/
def genErrorMessage : GenOutcome → String
  | GenOutcome.ok _ => "No image URL returned."
  | GenOutcome.httpError status => "Status: " ++ toString status
  | GenOutcome.netError m => m

/-- `const imageUrl = data.url; if (imageUrl) ...`: the usable URL, if the
    response is ok and the url is present and truthy (non-empty). -/
def GenOutcome.usableUrl : GenOutcome → Option String
  | GenOutcome.ok (some u) => if u = "" then none else some u
  | _ => none

/-- The observable result of one handleGenerateWallpaper run: the settings
    record afterwards, the settingsMessage shown, whether the POST was
    issued, whether the busy flag was set, and the busy flag at the end. -/
structure GenResult where
  settings : SettingsRecord
  message : Option String
  networkCalled : Bool
  busySetTrue : Bool
  busyFinal : Bool
deriving Repr, DecidableEq

/-- handleGenerateWallpaper (App.jsx lines 188-240).  Precondition checks in
    source order: blank prompt, then missing key, each returning with only a
    message.  Otherwise the POST is issued once (no retry); a usable
    data.url is committed into settings.wallpaper (write-through as in
    setSettings) with a success message, and any failure - non-ok status,
    thrown error, or missing/empty url - lands in the catch block, which
    shows `Image generation error. Check prompt and key. (<message>)` and
    reverts settings.wallpaper to WALLPAPERS[0].url.  The finally block
    clears the busy flag on both paths. -/
def handleGenerateWallpaper (s : SettingsRecord) (wallpaperPrompt : String)
    (outcome : GenOutcome) : GenResult :=
  if jsTrim wallpaperPrompt = "" then
    ⟨s, some "Please enter a description for the wallpaper.", false, false, false⟩
  else if s.pollinationsApiKey = "" then
    ⟨s, some "Pollinations API Key is required to generate images.", false, false, false⟩
  else
    match outcome.usableUrl with
    | some url =>
      ⟨{ s with wallpaper := url }, some "Wallpaper successfully generated and applied!",
       true, true, false⟩
    | none =>
      ⟨{ s with wallpaper := firstPresetUrl },
       some ("Image generation error. Check prompt and key. (" ++ genErrorMessage outcome ++ ")"),
       true, true, false⟩

/- Theorems for the spec claims. -/

/-- C2 counterexample: loading a stored value that is not valid JSON
    (here "not-quite" the empty object: a lone opening brace) does not yield
    the default record - `JSON.parse(saved)` throws, because the initializer
    `saved ? JSON.parse(saved) : DEFAULT_SETTINGS` has no try/catch. -/
theorem loadSettings_corrupted_store_fails :
    loadSettings (some "\x7b") = Except.error "expected string key" ∧
    loadSettings (some "\x7b") ≠ Except.ok (settingsToJson DEFAULT_SETTINGS) := by
  refine ⟨rfl, ?_⟩
  intro h
  rw [show loadSettings (some "\x7b") = Except.error "expected string key" from rfl] at h
  exact Except.noConfusion h

/-- C2 (amended): load() returns the hard-coded default record exactly when
    the stored value is absent or empty (falsy); a present non-empty value
    is handed to JSON.parse unprotected, so a value that fails to parse
    makes load() fail with the parse error instead of returning the
    default. -/
theorem loadSettings_default_only_when_absent (s e : String) :
    loadSettings none = Except.ok (settingsToJson DEFAULT_SETTINGS) ∧
    loadSettings (some "") = Except.ok (settingsToJson DEFAULT_SETTINGS) ∧
    (s ≠ "" → jsonParse s = Except.error e → loadSettings (some s) = Except.error e) := by
  refine ⟨rfl, rfl, fun hs he => ?_⟩
  simp [loadSettings, hs, he]

/-- C2 witness: the corrupted stored value "not json" makes load() fail with
    the parse error rather than produce the default record. -/
theorem loadSettings_default_only_when_absent_witness :
    loadSettings (some "not json") = Except.error "invalid literal" :=
  (loadSettings_default_only_when_absent "not json" "invalid literal").2.2 (by decide) rfl

/-- C3 counterexample: after a settings mutation (and a notes mutation) from
    an empty store, the store keys "settings" and "notes" hold nothing - the
    source writes under 'dashboardSettings' and 'dashboardNotes'. -/
theorem setSettings_does_not_write_key_settings :
    (setSettings ⟨DEFAULT_SETTINGS, "", emptyStore⟩ DEFAULT_SETTINGS).store "settings" = none ∧
    (setSettings ⟨DEFAULT_SETTINGS, "", emptyStore⟩ DEFAULT_SETTINGS).store "settings" ≠
      some (serializeSettings DEFAULT_SETTINGS) ∧
    (setNotes ⟨DEFAULT_SETTINGS, "", emptyStore⟩ "note").store "notes" = none := by
  refine ⟨?_, ?_, ?_⟩ <;> decide

/-- C3 (amended): write-through holds for the keys the source actually
    uses - immediately after every settings mutation the store value under
    'dashboardSettings' is the JSON serialization of the new record, and
    after every notes mutation the store value under 'dashboardNotes' is
    the new notes string. -/
theorem writeThrough_dashboard_keys (a : AppState) (r : SettingsRecord) (n : String) :
    (setSettings a r).settings = r ∧
    (setSettings a r).store "dashboardSettings" = some (serializeSettings r) ∧
    (setNotes a n).notes = n ∧
    (setNotes a n).store "dashboardNotes" = some n := by
  refine ⟨rfl, ?_, rfl, ?_⟩ <;> simp [setSettings, setNotes, persistSettings, persistNotes, Store.set]

/-- C6: when the endpoint answers HTTP 401, the wrapper performs exactly one
    attempt (no retry) and produces the authentication-error text. -/
theorem runCall_401_single_attempt (resp : Nat → HttpOutcome) (jit : Nat → ℚ) (cC cS : Bool)
    (h : resp 0 = HttpOutcome.status 401) :
    (runCall resp jit cC cS).attempts = 1 ∧
    (runCall resp jit cC cS).result = "AI Error: Authentication failed. Check your API key." := by
  have hrange : List.range maxRetries = [0, 1, 2] := rfl
  simp [runCall, hrange, runAttemptsList, h]

/-- C6 witness: a concrete endpoint that always answers 401. -/
theorem runCall_401_single_attempt_witness :
    (runCall (fun _ => HttpOutcome.status 401) (fun _ => 0) false false).attempts = 1 ∧
    (runCall (fun _ => HttpOutcome.status 401) (fun _ => 0) false false).result =
      "AI Error: Authentication failed. Check your API key." :=
  runCall_401_single_attempt (fun _ => HttpOutcome.status 401) (fun _ => 0) false false rfl

/-- C4: against an endpoint answering 429, 429, then 200, the wrapper makes
    exactly 3 attempts, sleeps 2^0*1000 + jitter then 2^1*1000 + jitter
    before the two retries (total forced delay (1000+jitter 0)+(2000+jitter 1),
    hence at least 3000 ms), and returns the success payload on the third
    attempt; and when every attempt answers 429 it makes 3 attempts and
    fails with the rate-limit text naming status 429. -/
theorem runCall_429_retry_backoff (resp resp429 : Nat → HttpOutcome) (jit : Nat → ℚ)
    (cC cS : Bool) (body : String)
    (hj : ∀ n, 0 ≤ jit n ∧ jit n < 1000)
    (h0 : resp 0 = HttpOutcome.status 429) (h1 : resp 1 = HttpOutcome.status 429)
    (h2 : resp 2 = HttpOutcome.ok (some body)) (hb : body ≠ "")
    (hall : ∀ n, resp429 n = HttpOutcome.status 429) :
    ((runCall resp jit cC cS).attempts = 3 ∧
     (runCall resp jit cC cS).result = body ∧
     (runCall resp jit cC cS).sleeps = [1000 + jit 0, 2000 + jit 1] ∧
     (1000 + jit 0) + (2000 + jit 1) ≤ (runCall resp jit cC cS).sleeps.sum ∧
     3000 ≤ (runCall resp jit cC cS).sleeps.sum) ∧
    ((runCall resp429 jit cC cS).attempts = 3 ∧
     (runCall resp429 jit cC cS).result = "AI Error: API call failed with status: 429") := by
  have hrange : List.range maxRetries = [0, 1, 2] := rfl
  have hsl : (runCall resp jit cC cS).sleeps = [1000 + jit 0, 2000 + jit 1] := by
    simp [runCall, hrange, runAttemptsList, h0, h1, h2, maxRetries]
    norm_num
  refine ⟨⟨?_, ?_, hsl, ?_, ?_⟩, ?_, ?_⟩
  · simp [runCall, hrange, runAttemptsList, h0, h1, h2, maxRetries]
  · simp [runCall, hrange, runAttemptsList, h0, h1, h2, maxRetries, hb]
  · rw [hsl]; simp
  · rw [hsl]; simp; linarith [(hj 0).1, (hj 1).1]
  · simp [runCall, hrange, runAttemptsList, hall, maxRetries]
  · have hres : (runCall resp429 jit cC cS).result =
        "AI Error: API call failed with status: " ++ toString 429 := by
      simp [runCall, hrange, runAttemptsList, hall, maxRetries]
    rw [hres]
    rfl

/-- C4 witness: a concrete endpoint answering 429 twice then 200 with body
    "ok!", and zero jitter. -/
theorem runCall_429_retry_backoff_witness :
    (runCall (fun n => if n < 2 then HttpOutcome.status 429 else HttpOutcome.ok (some "ok!"))
      (fun _ => 0) false false).result = "ok!" :=
  ((runCall_429_retry_backoff
      (fun n => if n < 2 then HttpOutcome.status 429 else HttpOutcome.ok (some "ok!"))
      (fun _ => HttpOutcome.status 429) (fun _ => 0) false false "ok!"
      (fun _ => by norm_num) rfl rfl rfl (by decide) (fun _ => rfl)).1).2.1

/-- C5: a chat or search submission (non-blank prompt) while the
    Pollinations key is empty performs no fetch, leaves both busy flags
    untouched (never set to true), and puts the literal
    "Error: Pollinations API Key not set in settings." into the submitting
    widget's response field. -/
theorem submit_with_empty_key_short_circuits (st : AIState) (key query : String)
    (responses : Nat → HttpOutcome) (jitter : Nat → ℚ)
    (hk : key = "") (hq : jsTrim query ≠ "") :
    (handleAIChatSubmit st key query responses jitter).attempts = 0 ∧
    (handleAIChatSubmit st key query responses jitter).busySetTrue = false ∧
    (handleAIChatSubmit st key query responses jitter).state.aiChatResponse = keyNotSetMsg ∧
    (handleAIChatSubmit st key query responses jitter).state.isAIChatting = st.isAIChatting ∧
    (handleAIChatSubmit st key query responses jitter).state.isAISearching = st.isAISearching ∧
    (handleAISearchSubmit st key query responses jitter).attempts = 0 ∧
    (handleAISearchSubmit st key query responses jitter).busySetTrue = false ∧
    (handleAISearchSubmit st key query responses jitter).state.aiSearchResponse = keyNotSetMsg ∧
    (handleAISearchSubmit st key query responses jitter).state.isAISearching = st.isAISearching ∧
    (handleAISearchSubmit st key query responses jitter).state.isAIChatting = st.isAIChatting := by
  subst hk
  simp [handleAIChatSubmit, handleAISearchSubmit, callPollinationsChatAPI, hq]

/-- C5 witness: the spec's concrete scenario - prompt "hello" with no
    credential configured. -/
theorem submit_with_empty_key_short_circuits_witness :
    (handleAIChatSubmit ⟨"", "", false, false⟩ "" "hello"
      (fun _ => HttpOutcome.netError "x") (fun _ => 0)).state.aiChatResponse = keyNotSetMsg :=
  (submit_with_empty_key_short_circuits ⟨"", "", false, false⟩ "" "hello"
    (fun _ => HttpOutcome.netError "x") (fun _ => 0) rfl (by decide)).2.2.1

/-- C1: evaluation of the wrapper at the failing input.  A search call made
    from a render in which isAIChatting is true (a chat request in flight),
    against an endpoint answering 401: the busy flag isAISearching is set
    to true, exactly one classified error text is produced, but the finally
    block's condition `attempt === maxRetries - 1 || (!isAIChatting &&
    !isAISearching)` is false on this early-return path (attempt 0, captured
    isAIChatting true), so the flag is never cleared - it never transitions
    true to false, contradicting the claimed per-call guarantee. -/
theorem callPollinationsChatAPI_busy_flag_uncleared :
    (callPollinationsChatAPI ⟨"", "", true, false⟩ "k" true
      (fun _ => HttpOutcome.status 401) (fun _ => 0)).busySetTrue = true ∧
    (callPollinationsChatAPI ⟨"", "", true, false⟩ "k" true
      (fun _ => HttpOutcome.status 401) (fun _ => 0)).state.isAISearching = true ∧
    (callPollinationsChatAPI ⟨"", "", true, false⟩ "k" true
      (fun _ => HttpOutcome.status 401) (fun _ => 0)).state.aiSearchResponse =
      "AI Error: Authentication failed. Check your API key." ∧
    (callPollinationsChatAPI ⟨"", "", true, false⟩ "k" true
      (fun _ => HttpOutcome.status 401) (fun _ => 0)).attempts = 1 := by
  decide

/-- C7: with an empty weather apiKey the refresher performs no network call,
    installs the mock snapshot after the simulated 800 ms delay, with the
    fixed condition, the unit-dependent fixed temperature (72 for F, 22
    otherwise), and a location label ending in "(Mock)". -/
theorem fetchWeather_empty_key_mock (s : SettingsRecord) (geo : Except String (ℚ × ℚ))
    (response : WeatherQuery → String → FetchOutcome) (hk : s.apiKey = "") :
    (fetchWeather s geo response).networkCalled = false ∧
    (fetchWeather s geo response).mockDelayMs = some 800 ∧
    (fetchWeather s geo response).weather.condition = "Clear Sky" ∧
    (fetchWeather s geo response).weather.temp = TempVal.num (if s.unit = "F" then 72 else 22) ∧
    (fetchWeather s geo response).weather.location = "Rochester, MN " ++ "(Mock)" := by
  refine ⟨?_, ?_, ?_, ?_, ?_⟩ <;> simp [fetchWeather, mockWeatherSnapshot, hk]

/-- C7 witness: the default settings (empty apiKey), with rejecting
    geolocation and a failing endpoint, still produce the mock path. -/
theorem fetchWeather_empty_key_mock_witness :
    (fetchWeather DEFAULT_SETTINGS (Except.error "denied")
      (fun _ _ => FetchOutcome.netError "x")).networkCalled = false :=
  (fetchWeather_empty_key_mock DEFAULT_SETTINGS (Except.error "denied")
    (fun _ _ => FetchOutcome.netError "x") rfl).1

/-- C8: with an apiKey present, whenever the run does not reach a successful
    response - the geolocation promise rejects (so no query is formed), or
    the GET yields a non-ok status or throws - the installed snapshot is
    exactly the error snapshot (placeholder temperature, condition
    "API Error", location "Check Key", humidity 0, wind 0), replacing all
    fields of whatever snapshot was there before. -/
theorem fetchWeather_failure_error_snapshot (s : SettingsRecord)
    (geo : Except String (ℚ × ℚ)) (response : WeatherQuery → String → FetchOutcome)
    (hk : s.apiKey ≠ "")
    (hfail : ∀ q, liveQuery s geo = Except.ok q → (response q (unitsParam s)).isSuccess = false) :
    (fetchWeather s geo response).weather = errorWeatherSnapshot := by
  unfold fetchWeather
  rw [if_neg hk]
  cases hq : liveQuery s geo with
  | error e => rfl
  | ok q =>
    have hr := hfail q hq
    cases hres : response q (unitsParam s) with
    | ok d => rw [hres] at hr; exact absurd hr (by simp [FetchOutcome.isSuccess])
    | httpError c => simp [hres]
    | netError m => simp [hres]

/-- C8 witness: apiKey "k", manual location, endpoint answering HTTP 500. -/
theorem fetchWeather_failure_error_snapshot_witness :
    (fetchWeather { DEFAULT_SETTINGS with apiKey := "k" } (Except.ok (0, 0))
      (fun _ _ => FetchOutcome.httpError 500)).weather = errorWeatherSnapshot :=
  fetchWeather_failure_error_snapshot { DEFAULT_SETTINGS with apiKey := "k" } (Except.ok (0, 0))
    (fun _ _ => FetchOutcome.httpError 500) (by decide) (fun q hq => rfl)

/-- C10: with an empty apiKey the mock snapshot's location label is the
    constant "Rochester, MN (Mock)", whatever the configured location text
    and the isAutoLocation toggle are. -/
theorem fetchWeather_mock_location_constant (s : SettingsRecord) (loc : String) (auto : Bool)
    (geo : Except String (ℚ × ℚ)) (response : WeatherQuery → String → FetchOutcome)
    (hk : s.apiKey = "") :
    (fetchWeather { s with location := loc, isAutoLocation := auto } geo response).weather.location =
      "Rochester, MN (Mock)" := by
  simp [fetchWeather, mockWeatherSnapshot, hk]

/-- C10 witness: location "Tokyo" with auto-location on still yields the
    fixed mock label. -/
theorem fetchWeather_mock_location_constant_witness :
    (fetchWeather { DEFAULT_SETTINGS with location := "Tokyo", isAutoLocation := true }
      (Except.error "denied") (fun _ _ => FetchOutcome.netError "x")).weather.location =
      "Rochester, MN (Mock)" :=
  fetchWeather_mock_location_constant DEFAULT_SETTINGS "Tokyo" true
    (Except.error "denied") (fun _ _ => FetchOutcome.netError "x") rfl

/-- C9: once the preconditions pass (non-blank prompt, key present), any run
    without a usable image URL - request failure, non-ok status, or a
    success response with data.url missing or empty - reverts
    settings.wallpaper to the first preset URL regardless of its prior
    value and shows the descriptive image-generation error message. -/
theorem handleGenerateWallpaper_failure_reverts (s : SettingsRecord) (p : String)
    (outcome : GenOutcome) (hp : jsTrim p ≠ "") (hk : s.pollinationsApiKey ≠ "")
    (hfail : outcome.usableUrl = none) :
    (handleGenerateWallpaper s p outcome).settings.wallpaper = firstPresetUrl ∧
    (handleGenerateWallpaper s p outcome).message =
      some ("Image generation error. Check prompt and key. (" ++ genErrorMessage outcome ++ ")") ∧
    (handleGenerateWallpaper s p outcome).networkCalled = true ∧
    (handleGenerateWallpaper s p outcome).busyFinal = false := by
  simp [handleGenerateWallpaper, hp, hk, hfail]

/-- C9 witness: prompt "cats", key "k", a thrown request error. -/
theorem handleGenerateWallpaper_failure_reverts_witness :
    (handleGenerateWallpaper { DEFAULT_SETTINGS with pollinationsApiKey := "k" } "cats"
      (GenOutcome.netError "boom")).settings.wallpaper = firstPresetUrl :=
  (handleGenerateWallpaper_failure_reverts { DEFAULT_SETTINGS with pollinationsApiKey := "k" }
    "cats" (GenOutcome.netError "boom") (by decide) (by decide) rfl).1
